import Mathlib

set_option maxRecDepth 100000

unseal Rat.add Rat.sub Rat.mul Rat.inv Rat.ofScientific

/-!
Shallow embedding of `tobii_calibration.py`: the calibration trajectory
state machine (`MainApp.run_calibration`), the live gaze / user-position
callbacks, session construction (`MainApp.calibrate`) and finalization
(`MainApp.close_calibration`).

Machine floats are modelled as exact rationals.  A possibly-NaN float is
`Option ℚ` with `none` standing for NaN; arithmetic on such values
propagates NaN, exactly as IEEE arithmetic does on the values this
program feeds through it.
-/

set_option autoImplicit false

/-- A float value that may be NaN (`none` is NaN). -/
abbrev EF := Option ℚ

/-- `math.isnan`. -/
def isnan (x : EF) : Bool := x.isNone

/-- NaN-propagating addition. -/
def efAdd : EF → EF → EF
  | some a, some b => some (a + b)
  | _, _ => none

/-- NaN-propagating subtraction. -/
def efSub : EF → EF → EF
  | some a, some b => some (a - b)
  | _, _ => none

/-- Multiply a possibly-NaN float by a plain (finite, non-NaN) float. -/
def efMulC (x : EF) (c : ℚ) : EF := x.map (fun a => a * c)

/-- Divide a possibly-NaN float by a plain nonzero float. -/
def efDivC (x : EF) (c : ℚ) : EF := x.map (fun a => a / c)

/-- Subtract a plain float from a possibly-NaN float. -/
def efSubC (x : EF) (c : ℚ) : EF := x.map (fun a => a - c)

/-- Add a plain float to a possibly-NaN float. -/
def efAddC (x : EF) (c : ℚ) : EF := x.map (fun a => a + c)

/-- `math.isclose(a, b, rel_tol=.., abs_tol=..)` on finite inputs:
`abs(a-b) <= max(rel_tol * max(abs(a), abs(b)), abs_tol)`. -/
def math_isclose (a b rel_tol abs_tol : ℚ) : Bool :=
  decide (|a - b| ≤ max (rel_tol * max |a| |b|) abs_tol)

/-- `is_close = partial(isclose, abs_tol=0.001)`: the absolute tolerance is
set to `0.001` while `rel_tol` keeps the Python default `1e-09`. -/
def is_close (a b : ℚ) : Bool := math_isclose a b (1 / 1000000000) (1 / 1000)

/-- `math.copysign(x, y)` (for `y` other than `-0.0`): `|x|` carrying the
sign of `y`. -/
def copysign (x y : ℚ) : ℚ := if y < 0 then -|x| else |x|

/-- Module constant `FAKE_CALIBRATION = False`. -/
def FAKE_CALIBRATION : Bool := false

/-! ## Live Sample Projector: the main-window widget state and the two
device callbacks (`gaze_data_callback`, `user_position_guide_callback`). -/

/-- Coordinates of a canvas oval item: `(X-R, Y-R, X+R, Y+R)`. -/
abbrev Oval := EF × EF × EF × EF

/-- The pieces of `MainApp` state that the two device callbacks read and
write: the enable flag, the two display checkboxes (modelled as the
`var.get() == 1` test), the canvas size, the cached canvas size set by the
gaze callback, the three persistent canvas markers and the progress bar. -/
structure AppState where
  callback_enabled : Bool
  eye_var : Bool
  gaze_var : Bool
  canvas_w : ℚ
  canvas_h : ℚ
  canvas_width : ℚ
  canvas_height : ℚ
  gaze : Option Oval
  eye_left : Option Oval
  eye_right : Option Oval
  dist_bar : ℚ
deriving DecidableEq

/-- One gaze sample dictionary (the fields the callback touches). -/
structure GazeData where
  left_gaze_point_on_display_area : EF × EF
  right_gaze_point_on_display_area : EF × EF
  left_gaze_point_validity : ℕ
  right_gaze_point_validity : ℕ
deriving DecidableEq

/-- One user-position sample dictionary: left/right 3D track-box
positions and their validity flags (0/1). -/
structure PosData where
  left_user_position : EF × EF × EF
  right_user_position : EF × EF × EF
  left_user_position_validity : ℕ
  right_user_position_validity : ℕ
deriving DecidableEq

/-- `MainApp.plot_gaze`: reposition (or create) the gaze marker at the
scaled position; either way the marker ends at the same coordinates. -/
def plot_gaze (self : AppState) (x y : EF) : AppState :=
  let R : ℚ := 10
  let X := efMulC x self.canvas_width
  let Y := efMulC y self.canvas_height
  { self with gaze := some (efSubC X R, efSubC Y R, efAddC X R, efAddC Y R) }

/-- `MainApp.plot_eyes`: reposition (or create) both eye markers at the
scaled positions. -/
def plot_eyes (self : AppState) (x1 y1 x2 y2 : EF) : AppState :=
  let R : ℚ := 10
  let X1 := efMulC x1 self.canvas_width
  let Y1 := efMulC y1 self.canvas_height
  let X2 := efMulC x2 self.canvas_width
  let Y2 := efMulC y2 self.canvas_height
  { self with
      eye_left := some (efSubC X1 R, efSubC Y1 R, efAddC X1 R, efAddC Y1 R),
      eye_right := some (efSubC X2 R, efSubC Y2 R, efAddC X2 R, efAddC Y2 R) }

/-- `MainApp.user_position_guide_callback`.  Note: unlike the gaze
callback, this function does not consult `callback_enabled`, and it never
reads the two validity fields of the sample. -/
def user_position_guide_callback (self : AppState) (data : PosData) : AppState :=
  let (left_eye_x, left_eye_y, left_eye_z) := data.left_user_position
  let (right_eye_x, right_eye_y, right_eye_z) := data.right_user_position
  let self :=
    if self.eye_var then
      plot_eyes self (efSub (some 1) left_eye_x) left_eye_y
        (efSub (some 1) right_eye_x) right_eye_y
    else self
  match left_eye_z, right_eye_z with
  | none, none => { self with dist_bar := 0 }
  | none, some right_z => { self with dist_bar := 100 * right_z }
  | some left_z, none => { self with dist_bar := 100 * left_z }
  | some left_z, some right_z => { self with dist_bar := 50 * (left_z + right_z) }

/-- `MainApp.gaze_data_callback`: returns immediately when the enable
flag is cleared; otherwise caches the canvas size and, when the gaze
display is on, plots nothing / one eye / the two-eye average according to
whether each eye's x coordinate is NaN. -/
def gaze_data_callback (self : AppState) (data : GazeData) : AppState :=
  if !self.callback_enabled then self
  else
    let self := { self with canvas_width := self.canvas_w, canvas_height := self.canvas_h }
    if self.gaze_var then
      let gaze_left := data.left_gaze_point_on_display_area
      let gaze_right := data.right_gaze_point_on_display_area
      if isnan gaze_left.1 && isnan gaze_right.1 then
        self
      else if isnan gaze_left.1 then
        plot_gaze self gaze_right.1 gaze_right.2
      else if isnan gaze_right.1 then
        plot_gaze self gaze_left.1 gaze_left.2
      else
        plot_gaze self (efDivC (efAdd gaze_left.1 gaze_right.1) 2)
          (efDivC (efAdd gaze_left.2 gaze_right.2) 2)
    else self

/-! ## Calibration trajectory state machine. -/

/-- `CalibrationState` enum. -/
inductive CalibrationState where
  | MOVING
  | SHRINKING
  | GROWING
deriving DecidableEq

/-- The calibration-session fields set up by `MainApp.calibrate` and
driven by `MainApp.run_calibration`, plus a `done` flag (set when
`close_calibration` ran and no further tick was scheduled) and a count of
`collect_data` calls made so far, used to index the device oracle. -/
structure Session where
  targets : List (ℚ × ℚ)
  r_max : ℚ
  r_min : ℚ
  pos : ℚ × ℚ
  r : ℚ
  index : ℕ
  state : CalibrationState
  done : Bool
  calls : ℕ
deriving DecidableEq

/-- Constants local to `run_calibration`: `STEP = 0.02`. -/
def STEP : ℚ := 0.02

/-- `STEP_R = 2` (pixels). -/
def STEP_R : ℚ := 2

/-- Observable side effects of one `run_calibration` tick: the positions
passed to `calibration.collect_data` (in call order), whether the tone was
played, whether the dot was redrawn, whether `close_calibration` was
invoked, and whether a next tick was scheduled via `after`. -/
structure TickEvents where
  collects : List (ℚ × ℚ)
  sound : Bool
  drew : Bool
  finalized : Bool
  scheduled : Bool
deriving DecidableEq

/-- The empty event record (nothing happened). -/
def noTickEvents : TickEvents :=
  { collects := [], sound := false, drew := false, finalized := false, scheduled := false }

/-- `MainApp.run_calibration`, one tick.  `dev k` is the status of the
`k`-th `collect_data` call of the session (`true` =
`CALIBRATION_STATUS_SUCCESS`). -/
def run_calibration (dev : ℕ → Bool) (s : Session) : Session × TickEvents :=
  match s.state with
  | CalibrationState.MOVING =>
    if is_close s.pos.1 (s.targets.getD s.index (0, 0)).1 &&
        is_close s.pos.2 (s.targets.getD s.index (0, 0)).2 then
      ({ s with state := CalibrationState.SHRINKING },
       { collects := [], sound := true, drew := false, finalized := false, scheduled := true })
    else
      let diff_x := (s.targets.getD s.index (0, 0)).1 - s.pos.1
      let diff_y := (s.targets.getD s.index (0, 0)).2 - s.pos.2
      let px := if is_close diff_x 0 then s.pos.1 else s.pos.1 + copysign STEP diff_x
      let py := if is_close diff_y 0 then s.pos.2 else s.pos.2 + copysign STEP diff_y
      ({ s with pos := (px, py) },
       { collects := [], sound := false, drew := true, finalized := false, scheduled := true })
  | CalibrationState.SHRINKING =>
    if is_close s.r s.r_min then
      let collects := if FAKE_CALIBRATION then []
        else if dev s.calls then [s.pos] else [s.pos, s.pos]
      ({ s with state := CalibrationState.GROWING, calls := s.calls + collects.length },
       { collects := collects, sound := false, drew := false, finalized := false, scheduled := true })
    else
      ({ s with r := s.r - STEP_R },
       { collects := [], sound := false, drew := true, finalized := false, scheduled := true })
  | CalibrationState.GROWING =>
    if is_close s.r s.r_max then
      if s.index = s.targets.length - 1 then
        ({ s with done := true },
         { collects := [], sound := false, drew := false, finalized := true, scheduled := false })
      else
        ({ s with index := s.index + 1, state := CalibrationState.MOVING },
         { collects := [], sound := false, drew := false, finalized := false, scheduled := true })
    else
      ({ s with r := s.r + STEP_R },
       { collects := [], sound := false, drew := true, finalized := false, scheduled := true })

/-- The session fields as `MainApp.calibrate` sets them just before the
first `run_calibration` tick. -/
def calibrate_init : Session :=
  { targets := [(0.1, 0.2), (0.9, 0.2), (0.1, 0.9), (0.9, 0.9), (0.5, 0.5)]
    r_max := 30
    r_min := 2
    pos := (0.2, 0.6)
    r := 30
    index := 0
    state := CalibrationState.MOVING
    done := false
    calls := 0 }

/-- One scheduler step: a tick runs only while one is scheduled; once the
terminal tick has declined to re-arm the timer, nothing runs again. -/
def calib_step (dev : ℕ → Bool) (s : Session) : Session × TickEvents :=
  if s.done then (s, noTickEvents) else run_calibration dev s

/-- The session after `n` scheduler steps from the start of calibration. -/
def calib_trace (dev : ℕ → Bool) : ℕ → Session
  | 0 => calibrate_init
  | n + 1 => (calib_step dev (calib_trace dev n)).1

/-- A device oracle whose every `collect_data` call succeeds. -/
def devT : ℕ → Bool := fun _ => true

/-! ## Finalization (`MainApp.close_calibration`). -/

/-- Observable effects of `close_calibration`: whether
`leave_calibration_mode` was called, the error dialog shown (if any),
whether the result plot was produced, and whether the calibration window
was destroyed. -/
structure CloseEvents where
  leave_called : Bool
  error_shown : Option String
  plotted : Bool
  window_destroyed : Bool
deriving DecidableEq

/-- `MainApp.close_calibration`.  `compute` is the outcome of
`calibration.compute_and_apply()` and `leave` the outcome of
`calibration.leave_calibration_mode()`; an `Except.error` models a raised
device exception.  The `try` block runs `compute_and_apply`, then
`leave_calibration_mode`, then `plot_calibration`; the `except` clause
shows the error dialog; `calib_window.destroy()` runs after either path. -/
def close_calibration (compute : Except String Unit) (leave : Except String Unit) :
    CloseEvents :=
  if FAKE_CALIBRATION then
    { leave_called := false, error_shown := none, plotted := false, window_destroyed := true }
  else
    match compute with
    | Except.error e =>
      { leave_called := false, error_shown := some e, plotted := false, window_destroyed := true }
    | Except.ok _ =>
      match leave with
      | Except.error e =>
        { leave_called := true, error_shown := some e, plotted := false, window_destroyed := true }
      | Except.ok _ =>
        { leave_called := true, error_shown := none, plotted := true, window_destroyed := true }

/-! ## Concrete states used as counterexample / witness inputs. -/

/-- An app state whose enable flag has been cleared (as
`prepare_to_close` does), with both displays on and markers present. -/
def app_disabled : AppState :=
  { callback_enabled := false
    eye_var := true
    gaze_var := true
    canvas_w := 100
    canvas_h := 100
    canvas_width := 100
    canvas_height := 100
    gaze := some (some 30, some 30, some 50, some 50)
    eye_left := some (some 20, some 20, some 40, some 40)
    eye_right := some (some 60, some 20, some 80, some 40)
    dist_bar := 50 }

/-- The same widget state with the enable flag still set. -/
def app_enabled : AppState := { app_disabled with callback_enabled := true }

/-- A position sample where both eyes are tracked. -/
def pos_sample_valid : PosData :=
  { left_user_position := (some 0.4, some 0.5, some 0.6)
    right_user_position := (some 0.6, some 0.5, some 0.6)
    left_user_position_validity := 1
    right_user_position_validity := 1 }

/-- A position sample where the left eye is invalid (validity 0, NaN
coordinates) and the right eye is valid. -/
def pos_sample_left_invalid : PosData :=
  { left_user_position := (none, none, none)
    right_user_position := (some 0.4, some 0.5, some 0.6)
    left_user_position_validity := 0
    right_user_position_validity := 1 }

/-- A gaze sample whose left point has a real x and a NaN y, and whose
right point is fully NaN. -/
def gaze_sample_left_nan_y : GazeData :=
  { left_gaze_point_on_display_area := (some 0.4, none)
    right_gaze_point_on_display_area := (none, none)
    left_gaze_point_validity := 1
    right_gaze_point_validity := 0 }

/-- A session sitting mid-SHRINK (radius not yet at `r_min`). -/
def shrink_sess : Session :=
  { calibrate_init with state := CalibrationState.SHRINKING, pos := (0.1, 0.2), r := 6 }

/-- A session on the arrival SHRINKING tick (radius at `r_min`). -/
def shrink_sess_min : Session :=
  { calibrate_init with state := CalibrationState.SHRINKING, pos := (0.1, 0.2), r := 2 }

/-- A session on the terminal GROWING tick: radius back at `r_max` and
the last target index current. -/
def terminal_sess : Session :=
  { calibrate_init with state := CalibrationState.GROWING, pos := (0.5, 0.5), index := 4, r := 30 }

/-- A mid-GROWING session (radius below `r_max`), not terminal. -/
def grow_sess : Session :=
  { calibrate_init with state := CalibrationState.GROWING, pos := (0.1, 0.2), r := 10 }

/-- A gaze sample with both eye x coordinates NaN. -/
def gaze_sample_both_nan : GazeData :=
  { left_gaze_point_on_display_area := (none, some 0.5)
    right_gaze_point_on_display_area := (none, some 0.5)
    left_gaze_point_validity := 0
    right_gaze_point_validity := 0 }

/-- The dot radii a session can exhibit: the even pixel values from
`r_min = 2` to `r_max = 30` stepped by `STEP_R = 2`. -/
def radii : List ℚ := [2, 4, 6, 8, 10, 12, 14, 16, 18, 20, 22, 24, 26, 28, 30]

/-- The session invariant: the target list is the one built by
`calibrate`, the radius bounds are 2 and 30, `index` is a valid index
into `targets`, and the radius is one of the reachable radii. -/
def SessionInv (s : Session) : Prop :=
  s.targets = calibrate_init.targets ∧ s.r_min = 2 ∧ s.r_max = 30 ∧
  s.index < s.targets.length ∧ s.r ∈ radii

/-- One scheduler step never skips a phase of the cycle
MOVING → SHRINKING → GROWING → (MOVING or terminal): the phase either
stays put (including the terminal tick, which keeps GROWING and sets
`done`) or advances to the cycle's successor. -/
def phase_ok (s t : Session) : Prop :=
  t.state = s.state ∨
  (s.state = CalibrationState.MOVING ∧ t.state = CalibrationState.SHRINKING) ∨
  (s.state = CalibrationState.SHRINKING ∧ t.state = CalibrationState.GROWING) ∨
  (s.state = CalibrationState.GROWING ∧ t.state = CalibrationState.MOVING)

/-! # Claims -/

/-- C1, counterexample: the constructed target list is not the claimed
5-point pattern with all four corners inset by 10% in both axes — the two
top targets sit at y = 0.2, not y = 0.1. -/
theorem C1_counterexample :
    calibrate_init.targets ≠ [(0.1, 0.1), (0.9, 0.1), (0.1, 0.9), (0.9, 0.9), (0.5, 0.5)] := by
  decide

/-- C1, amended: when a calibration starts the constructed targets equal
`[(0.1, 0.2), (0.9, 0.2), (0.1, 0.9), (0.9, 0.9), (0.5, 0.5)]` — the two
top corners are inset 10% in x but 20% in y — visited from index 0 in
list order, starting in the MOVING phase. -/
theorem C1_amended :
    calibrate_init.targets = [(0.1, 0.2), (0.9, 0.2), (0.1, 0.9), (0.9, 0.9), (0.5, 0.5)] ∧
    calibrate_init.index = 0 ∧ calibrate_init.state = CalibrationState.MOVING := by
  decide

/-- C2, code behavior at the failing input: when `compute_and_apply`
raises a device error, `close_calibration` jumps to the `except` handler,
so `leave_calibration_mode` is never invoked, even though the error is
surfaced non-fatally and the calibration window is still destroyed.  The
claim (and the spec's guaranteed-release requirement) says the device-side
`leave_calibration_mode` must still run in this case. -/
theorem C2_code_behavior :
    close_calibration (Except.error "device error") (Except.ok ()) =
      { leave_called := false
        error_shown := some "device error"
        plotted := false
        window_destroyed := true } := rfl

/-- C5, counterexample: `is_close` keeps Python's default relative
tolerance `1e-09`, so at `a = 10^8`, `b = 10^8 + 0.01` it returns true
even though `|a - b| = 0.01 > 0.001` — refuting both `only if
|a-b| ≤ 0.001` and `false whenever |a-b| = 0.01`. -/
theorem C5_counterexample :
    is_close 100000000 (100000000 + 1 / 100) = true ∧
    ¬ |(100000000 : ℚ) - (100000000 + 1 / 100)| ≤ 1 / 1000 ∧
    |(100000000 : ℚ) - (100000000 + 1 / 100)| = 1 / 100 := by
  decide

/-- C5, amended: at its default tolerances the helper returns true iff
`|a-b| ≤ max(1e-09 * max(|a|,|b|), 0.001)`; in particular it is true
whenever `|a-b| ≤ 0.001`, while for `|a-b| = 0.01` it is false only when
the relative term stays below `0.01`. -/
theorem C5_amended :
    ∀ a b : ℚ,
      (is_close a b = true ↔ |a - b| ≤ max (1 / 1000000000 * max |a| |b|) (1 / 1000)) ∧
      (|a - b| ≤ 1 / 1000 → is_close a b = true) := by
  intro a b
  have h : is_close a b = true ↔ |a - b| ≤ max (1 / 1000000000 * max |a| |b|) (1 / 1000) := by
    simp [is_close, math_isclose]
  exact ⟨h, fun hab => h.mpr (le_trans hab (le_max_right _ _))⟩

/-- C5, witness for the amended theorem at `a = 1/2`, `b = 1/2`. -/
theorem C5_witness : is_close (1 / 2) (1 / 2) = true :=
  (C5_amended (1 / 2) (1 / 2)).2 (by decide)

/-- C10 (confirmed): with the feed enabled and the gaze display on, which
branch the gaze callback takes is decided solely by whether each eye's x
coordinate is NaN (both NaN: no plot; one x NaN: plot the other eye's
point as is; neither: plot the average), so the y coordinates never
influence the branch; in particular a left point with a real x and a NaN
y against a fully-NaN right point is plotted, yielding a marker whose
vertical coordinates are NaN-derived. -/
theorem C10_gaze_branching :
    (∀ (app : AppState) (d : GazeData), app.callback_enabled = true → app.gaze_var = true →
      (isnan d.left_gaze_point_on_display_area.1 = true →
        isnan d.right_gaze_point_on_display_area.1 = true →
        gaze_data_callback app d =
          { app with canvas_width := app.canvas_w, canvas_height := app.canvas_h }) ∧
      (isnan d.left_gaze_point_on_display_area.1 = true →
        isnan d.right_gaze_point_on_display_area.1 = false →
        gaze_data_callback app d =
          plot_gaze { app with canvas_width := app.canvas_w, canvas_height := app.canvas_h }
            d.right_gaze_point_on_display_area.1 d.right_gaze_point_on_display_area.2) ∧
      (isnan d.left_gaze_point_on_display_area.1 = false →
        isnan d.right_gaze_point_on_display_area.1 = true →
        gaze_data_callback app d =
          plot_gaze { app with canvas_width := app.canvas_w, canvas_height := app.canvas_h }
            d.left_gaze_point_on_display_area.1 d.left_gaze_point_on_display_area.2) ∧
      (isnan d.left_gaze_point_on_display_area.1 = false →
        isnan d.right_gaze_point_on_display_area.1 = false →
        gaze_data_callback app d =
          plot_gaze { app with canvas_width := app.canvas_w, canvas_height := app.canvas_h }
            (efDivC (efAdd d.left_gaze_point_on_display_area.1
              d.right_gaze_point_on_display_area.1) 2)
            (efDivC (efAdd d.left_gaze_point_on_display_area.2
              d.right_gaze_point_on_display_area.2) 2))) ∧
    (gaze_data_callback app_enabled gaze_sample_left_nan_y).gaze =
      some (some 30, none, some 50, none) := by
  constructor
  · intro app d he hg
    refine ⟨?_, ?_, ?_, ?_⟩ <;> intro h1 h2 <;>
      simp [gaze_data_callback, he, hg, h1, h2]
  · decide

/-- C10, witness: the both-NaN branch at a concrete app state and
sample. -/
theorem C10_witness :
    gaze_data_callback app_enabled gaze_sample_both_nan =
      { app_enabled with canvas_width := app_enabled.canvas_w,
                         canvas_height := app_enabled.canvas_h } :=
  ((C10_gaze_branching.1 app_enabled gaze_sample_both_nan rfl rfl).1) rfl rfl

/-- C3, counterexample: with the enable flag cleared, a dispatched
position-feed callback is not a no-op — it still repositions the eye
markers and updates the distance indicator, because
`user_position_guide_callback` never consults `callback_enabled`. -/
theorem C3_counterexample :
    app_disabled.callback_enabled = false ∧
    user_position_guide_callback app_disabled pos_sample_valid ≠ app_disabled := by
  decide

/-- C3, amended: after the enable flag is cleared every subsequently
dispatched gaze-feed callback is a no-op, but the position-feed callback
does not consult the flag at all: its effect on the markers and the
indicator is identical whatever the flag's value. -/
theorem C3_amended :
    (∀ (app : AppState) (d : GazeData), app.callback_enabled = false →
      gaze_data_callback app d = app) ∧
    (∀ (app : AppState) (d : PosData) (b : Bool),
      user_position_guide_callback { app with callback_enabled := b } d =
        { user_position_guide_callback app d with callback_enabled := b }) := by
  constructor
  · intro app d h
    simp [gaze_data_callback, h]
  · intro app d b
    obtain ⟨cb, ev, gv, cw, ch, cwc, chc, g, el, er, db⟩ := app
    obtain ⟨⟨lx, ly, lz⟩, ⟨rx, ry, rz⟩, lv, rv⟩ := d
    cases ev <;> cases lz <;> cases rz <;> rfl

/-- C3, witness: the disabled gaze callback at a concrete state and
sample. -/
theorem C3_witness :
    gaze_data_callback app_disabled gaze_sample_both_nan = app_disabled :=
  C3_amended.1 app_disabled gaze_sample_both_nan rfl

/-- C4, counterexample: an eye marker is repositioned even when that
eye's validity does not hold — with the left eye invalid (validity 0, NaN
position) the left marker is still moved (to NaN-derived coordinates)
rather than left unchanged. -/
theorem C4_counterexample :
    pos_sample_left_invalid.left_user_position_validity = 0 ∧
    (user_position_guide_callback app_enabled pos_sample_left_invalid).eye_left ≠
      app_enabled.eye_left := by
  decide

/-- C4, amended: the position callback ignores the samples' validity
flags entirely; whenever the eyes display is on, both persistent markers
are repositioned unconditionally, each from its own eye's raw track-box
position with the displayed x mirrored as 1 minus the raw x, and the two
eyes are never averaged. -/
theorem C4_amended :
    (∀ (app : AppState) (d : PosData) (v1 v2 : ℕ),
      user_position_guide_callback app
          { d with left_user_position_validity := v1, right_user_position_validity := v2 } =
        user_position_guide_callback app d) ∧
    (∀ (app : AppState) (d : PosData), app.eye_var = true →
      (user_position_guide_callback app d).eye_left =
        some (efSubC (efMulC (efSub (some 1) d.left_user_position.1) app.canvas_width) 10,
              efSubC (efMulC d.left_user_position.2.1 app.canvas_height) 10,
              efAddC (efMulC (efSub (some 1) d.left_user_position.1) app.canvas_width) 10,
              efAddC (efMulC d.left_user_position.2.1 app.canvas_height) 10) ∧
      (user_position_guide_callback app d).eye_right =
        some (efSubC (efMulC (efSub (some 1) d.right_user_position.1) app.canvas_width) 10,
              efSubC (efMulC d.right_user_position.2.1 app.canvas_height) 10,
              efAddC (efMulC (efSub (some 1) d.right_user_position.1) app.canvas_width) 10,
              efAddC (efMulC d.right_user_position.2.1 app.canvas_height) 10)) := by
  constructor
  · intro app d v1 v2
    obtain ⟨cb, ev, gv, cw, ch, cwc, chc, g, el, er, db⟩ := app
    obtain ⟨⟨lx, ly, lz⟩, ⟨rx, ry, rz⟩, lv, rv⟩ := d
    cases ev <;> cases lz <;> cases rz <;> rfl
  · intro app d h
    obtain ⟨cb, ev, gv, cw, ch, cwc, chc, g, el, er, db⟩ := app
    obtain ⟨⟨lx, ly, lz⟩, ⟨rx, ry, rz⟩, lv, rv⟩ := d
    subst h
    cases lz <;> cases rz <;> exact ⟨rfl, rfl⟩

/-- C4, witness: the validity-ignoring marker update at a concrete state
and sample. -/
theorem C4_witness :
    (user_position_guide_callback app_enabled pos_sample_left_invalid).eye_left =
      some (efSubC (efMulC (efSub (some 1)
              pos_sample_left_invalid.left_user_position.1) app_enabled.canvas_width) 10,
            efSubC (efMulC pos_sample_left_invalid.left_user_position.2.1
              app_enabled.canvas_height) 10,
            efAddC (efMulC (efSub (some 1)
              pos_sample_left_invalid.left_user_position.1) app_enabled.canvas_width) 10,
            efAddC (efMulC pos_sample_left_invalid.left_user_position.2.1
              app_enabled.canvas_height) 10) ∧
    (user_position_guide_callback app_enabled pos_sample_left_invalid).eye_right =
      some (efSubC (efMulC (efSub (some 1)
              pos_sample_left_invalid.right_user_position.1) app_enabled.canvas_width) 10,
            efSubC (efMulC pos_sample_left_invalid.right_user_position.2.1
              app_enabled.canvas_height) 10,
            efAddC (efMulC (efSub (some 1)
              pos_sample_left_invalid.right_user_position.1) app_enabled.canvas_width) 10,
            efAddC (efMulC pos_sample_left_invalid.right_user_position.2.1
              app_enabled.canvas_height) 10) :=
  C4_amended.2 app_enabled pos_sample_left_invalid rfl

/-! ## Scheduler lemmas shared by the state-machine claims. -/

/-- A session whose terminal tick has run is never ticked again. -/
theorem calib_step_of_done (dev : ℕ → Bool) (s : Session) (h : s.done = true) :
    calib_step dev s = (s, noTickEvents) := by
  simp [calib_step, h]

/-- Every tick is either the terminal GROWING-at-`r_max`-last-index tick
(finalizing, unscheduling, setting `done`) or a non-terminal tick
(scheduling exactly one next tick, not finalizing, preserving `done`). -/
theorem run_calibration_cases (dev : ℕ → Bool) (s : Session) :
    (s.state = CalibrationState.GROWING ∧ is_close s.r s.r_max = true ∧
      s.index = s.targets.length - 1 ∧
      (run_calibration dev s).2.finalized = true ∧
      (run_calibration dev s).2.scheduled = false ∧
      (run_calibration dev s).1.done = true) ∨
    (¬(s.state = CalibrationState.GROWING ∧ is_close s.r s.r_max = true ∧
        s.index = s.targets.length - 1) ∧
      (run_calibration dev s).2.finalized = false ∧
      (run_calibration dev s).2.scheduled = true ∧
      (run_calibration dev s).1.done = s.done) := by
  obtain ⟨tg, rmx, rmn, pos, r, idx, st, dn, calls⟩ := s
  cases st <;> simp only [run_calibration] <;> split_ifs <;> simp_all

/-- A tick that finalizes leaves the session `done`. -/
theorem calib_step_finalized_done (dev : ℕ → Bool) (s : Session)
    (h : (calib_step dev s).2.finalized = true) : (calib_step dev s).1.done = true := by
  by_cases hd : s.done = true
  · rw [calib_step_of_done dev s hd] at h
    simp [noTickEvents] at h
  · have hstep : calib_step dev s = run_calibration dev s := by
      simp [calib_step, hd]
    rw [hstep] at h ⊢
    rcases run_calibration_cases dev s with hc | hc
    · exact hc.2.2.2.2.2
    · rw [hc.2.1] at h
      exact absurd h (by simp)

/-- Once `done`, the trace stays `done` forever. -/
theorem calib_trace_done_mono (dev : ℕ → Bool) (n : ℕ)
    (h : (calib_trace dev n).done = true) :
    ∀ k, (calib_trace dev (n + k)).done = true := by
  intro k
  induction k with
  | zero => exact h
  | succ k ih =>
    have : calib_trace dev (n + (k + 1)) = (calib_step dev (calib_trace dev (n + k))).1 := rfl
    rw [this, calib_step_of_done dev _ ih]
    exact ih

/-- C6 (confirmed): on a SHRINKING tick whose radius is not within
tolerance of `r_min`, the radius decreases by exactly `STEP_R` and the
state stays SHRINKING with no collection call; on the tick whose radius
is within tolerance, exactly one `collect_data` call is issued at the
current position, a second identical call is issued iff the first
returns non-success, never a third, the resulting session is the same
whatever the statuses were (the failure is silently accepted), and the
state becomes GROWING on that same tick. -/
theorem C6_shrinking_tick :
    ∀ (dev : ℕ → Bool) (s : Session), s.state = CalibrationState.SHRINKING →
      (is_close s.r s.r_min = false →
        run_calibration dev s =
          ({ s with r := s.r - STEP_R },
           { collects := [], sound := false, drew := true, finalized := false,
             scheduled := true })) ∧
      (is_close s.r s.r_min = true →
        (run_calibration dev s).2.collects =
          (if dev s.calls then [s.pos] else [s.pos, s.pos]) ∧
        (run_calibration dev s).2.collects.length ≤ 2 ∧
        (run_calibration dev s).1 =
          { s with state := CalibrationState.GROWING,
                   calls := s.calls + (run_calibration dev s).2.collects.length } ∧
        (run_calibration dev s).2.sound = false ∧
        (run_calibration dev s).2.finalized = false ∧
        (run_calibration dev s).2.scheduled = true) := by
  intro dev s hs
  obtain ⟨tg, rmx, rmn, pos, r, idx, st, dn, calls⟩ := s
  subst hs
  constructor
  · intro h
    simp [run_calibration, h]
  · intro h
    cases hdev : dev calls <;>
      simp [run_calibration, h, FAKE_CALIBRATION, hdev]

/-- C6, witness: a mid-shrink tick at radius 6 and the arrival tick at
radius 2 under an all-success device. -/
theorem C6_witness :
    run_calibration devT shrink_sess =
      ({ shrink_sess with r := shrink_sess.r - STEP_R },
       { collects := [], sound := false, drew := true, finalized := false,
         scheduled := true }) ∧
    (run_calibration devT shrink_sess_min).2.collects =
      (if devT shrink_sess_min.calls then [shrink_sess_min.pos]
       else [shrink_sess_min.pos, shrink_sess_min.pos]) :=
  ⟨(C6_shrinking_tick devT shrink_sess rfl).1 (by decide),
   ((C6_shrinking_tick devT shrink_sess_min rfl).2 (by decide)).1⟩

/-- C7 (confirmed): a GROWING tick with the radius within tolerance of
`r_max` on the last target index finalizes, schedules no further tick,
and makes the session terminal; any other tick of any phase schedules
exactly one next tick and does not finalize; a terminal session never
runs again, so after the finalizing tick no later step finalizes or
schedules anything — finalization is invoked exactly once. -/
theorem C7_terminal :
    ∀ (dev : ℕ → Bool) (s : Session),
      (s.state = CalibrationState.GROWING → is_close s.r s.r_max = true →
        s.index = s.targets.length - 1 →
        (run_calibration dev s).2.finalized = true ∧
        (run_calibration dev s).2.scheduled = false ∧
        (run_calibration dev s).1.done = true) ∧
      (¬(s.state = CalibrationState.GROWING ∧ is_close s.r s.r_max = true ∧
          s.index = s.targets.length - 1) →
        (run_calibration dev s).2.finalized = false ∧
        (run_calibration dev s).2.scheduled = true ∧
        (run_calibration dev s).1.done = s.done) ∧
      (s.done = true → calib_step dev s = (s, noTickEvents)) ∧
      (∀ n : ℕ, (calib_step dev (calib_trace dev n)).2.finalized = true →
        ∀ k : ℕ, calib_step dev (calib_trace dev (n + 1 + k)) =
          (calib_trace dev (n + 1 + k), noTickEvents)) := by
  intro dev s
  refine ⟨?_, ?_, calib_step_of_done dev s, ?_⟩
  · intro h1 h2 h3
    rcases run_calibration_cases dev s with hc | hc
    · exact ⟨hc.2.2.2.1, hc.2.2.2.2.1, hc.2.2.2.2.2⟩
    · exact absurd ⟨h1, h2, h3⟩ hc.1
  · intro hn
    rcases run_calibration_cases dev s with hc | hc
    · exact absurd ⟨hc.1, hc.2.1, hc.2.2.1⟩ hn
    · exact hc.2
  · intro n hfin k
    have h1 : (calib_trace dev (n + 1)).done = true :=
      calib_step_finalized_done dev (calib_trace dev n) hfin
    exact calib_step_of_done dev _ (calib_trace_done_mono dev (n + 1) h1 k)

/-- C7, witness: the terminal tick at the concrete session on the last
target with the radius back at `r_max`. -/
theorem C7_witness :
    (run_calibration devT terminal_sess).2.finalized = true ∧
    (run_calibration devT terminal_sess).2.scheduled = false ∧
    (run_calibration devT terminal_sess).1.done = true :=
  (C7_terminal devT terminal_sess).1 rfl (by decide) (by decide)

/-- C8 (confirmed): a MOVING tick either (both axes within tolerance of
the current target) transitions to SHRINKING on that same tick, playing
the tone and leaving position and radius untouched, or advances each
not-yet-arrived axis by exactly one signed `STEP` toward the target while
an arrived axis and the radius stay fixed; concretely, from the start
position (0.2, 0.6) toward the first target (0.1, 0.2) with step 0.02,
both coordinates approach the target monotonically without ever
overshooting, and on tick 21 — the first tick after both axes satisfy the
tolerance — the state becomes SHRINKING with the audio cue fired. -/
theorem C8_moving :
    (∀ (dev : ℕ → Bool) (s : Session), s.state = CalibrationState.MOVING →
      run_calibration dev s =
        (if (is_close s.pos.1 (s.targets.getD s.index (0, 0)).1 &&
             is_close s.pos.2 (s.targets.getD s.index (0, 0)).2) = true then
          ({ s with state := CalibrationState.SHRINKING },
           { collects := [], sound := true, drew := false, finalized := false,
             scheduled := true })
        else
          ({ s with pos :=
              ((if is_close ((s.targets.getD s.index (0, 0)).1 - s.pos.1) 0 then s.pos.1
                else s.pos.1 + copysign STEP ((s.targets.getD s.index (0, 0)).1 - s.pos.1)),
               (if is_close ((s.targets.getD s.index (0, 0)).2 - s.pos.2) 0 then s.pos.2
                else s.pos.2 + copysign STEP ((s.targets.getD s.index (0, 0)).2 - s.pos.2))) },
           { collects := [], sound := false, drew := true, finalized := false,
             scheduled := true }))) ∧
    calibrate_init.pos = (0.2, 0.6) ∧
    calibrate_init.targets.getD 0 (0, 0) = (0.1, 0.2) ∧
    (∀ n, n < 21 →
      (calib_trace devT n).state = CalibrationState.MOVING ∧
      (calib_trace devT n).r = 30 ∧
      (calib_trace devT n).pos.1 ≥ 0.1 ∧ (calib_trace devT n).pos.2 ≥ 0.2 ∧
      |(calib_trace devT (n + 1)).pos.1 - 0.1| ≤ |(calib_trace devT n).pos.1 - 0.1| ∧
      |(calib_trace devT (n + 1)).pos.2 - 0.2| ≤ |(calib_trace devT n).pos.2 - 0.2|) ∧
    (calib_trace devT 20).pos = (0.1, 0.2) ∧
    (calib_trace devT 21).state = CalibrationState.SHRINKING ∧
    (calib_step devT (calib_trace devT 20)).2.sound = true := by
  refine ⟨?_, by decide, by decide, by decide, by decide, by decide, by decide⟩
  intro dev s hs
  obtain ⟨tg, rmx, rmn, pos, r, idx, st, dn, calls⟩ := s
  subst hs
  simp only [run_calibration]

/-- C8, witness: the first MOVING tick from the freshly constructed
session. -/
theorem C8_witness :
    (run_calibration devT calibrate_init).2.sound = false ∧
    (run_calibration devT calibrate_init).1.pos = (0.18, 0.58) := by
  rw [C8_moving.1 devT calibrate_init rfl]
  decide

/-- A radius in `radii` that is not within tolerance of `r_min = 2` stays
in `radii` after one `STEP_R` decrement. -/
theorem radii_step_down : ∀ x ∈ radii, is_close x 2 = false → x - 2 ∈ radii := by
  decide

/-- A radius in `radii` that is not within tolerance of `r_max = 30`
stays in `radii` after one `STEP_R` increment. -/
theorem radii_step_up : ∀ x ∈ radii, is_close x 30 = false → x + 2 ∈ radii := by
  decide

/-- Every value in `radii` lies in the interval `[2, 30]`. -/
theorem radii_bounds : ∀ x ∈ radii, 2 ≤ x ∧ x ≤ 30 := by
  decide

/-- One scheduler step preserves the session invariant and never skips a
phase of the cycle. -/
theorem sessionInv_step (dev : ℕ → Bool) (s : Session) (h : SessionInv s) :
    SessionInv (calib_step dev s).1 ∧ phase_ok s (calib_step dev s).1 := by
  obtain ⟨ht, hmin, hmax, hidx, hr⟩ := h
  by_cases hd : s.done = true
  · rw [calib_step_of_done dev s hd]
    exact ⟨⟨ht, hmin, hmax, hidx, hr⟩, Or.inl rfl⟩
  · have hstep : calib_step dev s = run_calibration dev s := by
      simp [calib_step, hd]
    rw [hstep]
    have hlen : s.targets.length = 5 := by rw [ht]; rfl
    obtain ⟨tg, rmx, rmn, pos, r, idx, st, dn, calls⟩ := s
    simp only at ht hmin hmax hidx hr hlen
    subst ht hmin hmax
    cases st
    · -- MOVING
      simp only [run_calibration]
      split_ifs <;>
        exact ⟨⟨rfl, rfl, rfl, hidx, hr⟩,
          by first
            | exact Or.inl rfl
            | exact Or.inr (Or.inl ⟨rfl, rfl⟩)⟩
    · -- SHRINKING
      simp only [run_calibration]
      split_ifs with hc <;>
        first
          | exact ⟨⟨rfl, rfl, rfl, hidx, hr⟩, Or.inr (Or.inr (Or.inl ⟨rfl, rfl⟩))⟩
          | exact ⟨⟨rfl, rfl, rfl, hidx, by
                simpa [STEP_R] using radii_step_down r hr (by simpa using hc)⟩,
              Or.inl rfl⟩
    · -- GROWING
      simp only [run_calibration]
      split_ifs with hc hlast <;>
        first
          | exact ⟨⟨rfl, rfl, rfl, hidx, hr⟩, Or.inl rfl⟩
          | exact ⟨⟨rfl, rfl, rfl, by
                show idx + 1 < calibrate_init.targets.length
                omega, hr⟩,
              Or.inr (Or.inr (Or.inr ⟨rfl, rfl⟩))⟩
          | exact ⟨⟨rfl, rfl, rfl, hidx, by
                simpa [STEP_R] using radii_step_up r hr (by simpa using hc)⟩,
              Or.inl rfl⟩

/-- The session invariant holds at every point of every trace. -/
theorem sessionInv_trace (dev : ℕ → Bool) : ∀ n, SessionInv (calib_trace dev n) := by
  intro n
  induction n with
  | zero =>
    simp only [calib_trace, SessionInv]
    decide
  | succ n ih => exact (sessionInv_step dev _ ih).1

/-- C9 (confirmed): every state reachable from the start of a
calibration session by any sequence of scheduler steps, under any device
behavior, keeps the dot radius within `[r_min, r_max] = [2, 30]`, keeps
`current_index` a valid index into the target list, and never skips a
phase of the cycle MOVING → SHRINKING → GROWING → (MOVING or terminal)
on the step to its successor state. -/
theorem C9_invariant :
    ∀ (dev : ℕ → Bool) (n : ℕ),
      2 ≤ (calib_trace dev n).r ∧ (calib_trace dev n).r ≤ 30 ∧
      (calib_trace dev n).index < (calib_trace dev n).targets.length ∧
      phase_ok (calib_trace dev n) (calib_trace dev (n + 1)) := by
  intro dev n
  have h := sessionInv_trace dev n
  have hs := sessionInv_step dev _ h
  obtain ⟨ht, hmin, hmax, hidx, hr⟩ := h
  have hb := radii_bounds _ hr
  exact ⟨hb.1, hb.2, hidx, hs.2⟩
